import Mathlib

/-!
Shallow embedding of the order-creation and pricing engine of the WOS
restaurant point-of-sale backend (`routes/orders.py`, `routes/printers.py`,
`models.py`).

Monetary amounts (SQL `Numeric`, Python `float`/`Decimal`) are modelled as
exact rationals (`ℚ`); quantities as integers.  Python truthiness on
optional numbers/strings (`if x:`, `x or y`) is modelled explicitly: `none`,
`some 0` and the empty string are falsy.  Database state is an explicit
`Store`; each route handler is a function from the store (plus request data)
to the post-request store and an `Except` describing the HTTP outcome.  A
handler commits only at its end, mirroring the single `db.session.commit()`
per route with rollback / no-commit on every failure path.
-/

deriving instance DecidableEq for Except

namespace WOS

/-- An HTTP error response: message and status code. -/
structure ErrResp where
  msg : String
  code : Nat
  deriving Repr, DecidableEq

/-- `models.MenuItem`: price tiers and availability flags. -/
structure MenuItem where
  id : Nat
  name : String
  price : ℚ
  takeaway_price : Option ℚ
  beach_bar_price : Option ℚ
  is_available : Bool
  is_available_takeaway : Bool
  is_takeaway_only : Bool
  deriving Repr, DecidableEq

/-- `models.Table` (only the fields the order routes read). -/
structure Table where
  id : Nat
  table_number : Nat
  deriving Repr, DecidableEq

/-- `models.Location`. -/
structure Location where
  id : Nat
  name : String
  deriving Repr, DecidableEq

/-- `models.User` (only the fields the order routes read). -/
structure User where
  id : Nat
  role : String
  location_id : Option Nat
  deriving Repr, DecidableEq

/-- `models.Order` (monetary fields as exact rationals). -/
structure Order where
  id : Nat
  order_number : String
  table_id : Option Nat
  user_id : Nat
  order_type : String
  status : String
  location_id : Nat
  subtotal : ℚ
  tax_amount : ℚ
  discount_amount : ℚ
  total_amount : ℚ
  notes : String
  customer_name : Option String
  deriving Repr, DecidableEq

/-- `models.OrderItem`: one line of an order. -/
structure OrderItem where
  id : Nat
  order_id : Nat
  menu_item_id : Nat
  quantity : Int
  unit_price : ℚ
  total_price : ℚ
  special_instructions : String
  deriving Repr, DecidableEq

/-- The relational store the order routes read and write. -/
structure Store where
  users : List User
  locations : List Location
  tables : List Table
  menu_items : List MenuItem
  orders : List Order
  order_items : List OrderItem
  next_order_id : Nat
  next_item_id : Nat
  deriving Repr, DecidableEq

def findUser (s : Store) (uid : Nat) : Option User :=
  s.users.find? (fun u => u.id = uid)

def findLocation (s : Store) (lid : Nat) : Option Location :=
  s.locations.find? (fun l => l.id = lid)

def findTable (s : Store) (tid : Nat) : Option Table :=
  s.tables.find? (fun t => t.id = tid)

def findMenuItem (s : Store) (mid : Nat) : Option MenuItem :=
  s.menu_items.find? (fun m => m.id = mid)

def findOrder (s : Store) (oid : Nat) : Option Order :=
  s.orders.find? (fun o => o.id = oid)

def findOrderItem (s : Store) (iid oid : Nat) : Option OrderItem :=
  s.order_items.find? (fun it => it.id = iid && it.order_id = oid)

/-- The lines currently belonging to order `oid` (the `order.items` relation). -/
def orderLines (s : Store) (oid : Nat) : List OrderItem :=
  s.order_items.filter (fun it => it.order_id = oid)

/-- Python truthiness of an optional id (`if location_id:`): absent or `0` is falsy. -/
def natOptTruthy (o : Option Nat) : Bool :=
  match o with
  | none => false
  | some n => n ≠ 0

/-- Python truthiness of an optional integer (`item_data.get('quantity')`). -/
def intOptTruthy (o : Option Int) : Bool :=
  match o with
  | none => false
  | some n => n ≠ 0

/-- Python truthiness of an optional rational (`item_data.get('unit_price')`). -/
def ratOptTruthy (o : Option ℚ) : Bool :=
  match o with
  | none => false
  | some q => q ≠ 0

/-- Python `x or y` on an optional numeric column: `None` and `0` fall through. -/
def pyOrQ (o : Option ℚ) (d : ℚ) : ℚ :=
  match o with
  | none => d
  | some q => if q = 0 then d else q

/-- Python `x or y` on an optional string: `None` and `""` fall through. -/
def pyOrStr (o : Option String) (d : String) : String :=
  match o with
  | none => d
  | some t => if t = "" then d else t

/-- Price-tier resolution of `create_order` (orders.py lines 302-314):
takeaway price for takeaway orders, beach-bar price at the beach bar,
base price otherwise; `Numeric or price` Python fallbacks. -/
def resolveTierPrice (mi : MenuItem) (order_type location_name : String) : ℚ :=
  if order_type = "takeaway" then pyOrQ mi.takeaway_price mi.price
  else if location_name = "beach_bar" then pyOrQ mi.beach_bar_price mi.price
  else mi.price

/-- Manual price override of `create_order` (orders.py lines 316-319):
`if item_data.get('unit_price'):` — applied only when truthy. -/
def applyOverride (tier : ℚ) (override : Option ℚ) : ℚ :=
  match override with
  | none => tier
  | some p => if p = 0 then tier else p

/-- One line of a `create_order` request body (`data['items'][i]`).
Absent JSON keys are `none`; `menu_item_id = 0` models a falsy id. -/
structure ItemReq where
  menu_item_id : Nat
  quantity : Option Int
  unit_price : Option ℚ
  special_instructions : String
  deriving Repr, DecidableEq

/-- A `create_order` request body. -/
structure OrderReq where
  items : List ItemReq
  order_type : Option String
  table_id : Option Nat
  location_id : Option Nat
  customer_name : Option String
  discount_amount : ℚ
  notes : String
  deriving Repr, DecidableEq

/-- The per-item body of the `create_order` loop (orders.py lines 274-332):
presence check, menu-item lookup, availability check against the order
type, price-tier resolution and manual override, line total. -/
def processItem (s : Store) (order_type location_name : String)
    (oid iid : Nat) (it : ItemReq) : Except ErrResp OrderItem :=
  if ¬ (it.menu_item_id ≠ 0 ∧ intOptTruthy it.quantity) then
    .error ⟨"Menu item ID and quantity are required for all items", 400⟩
  else
    match findMenuItem s it.menu_item_id with
    | none => .error ⟨s!"Menu item {it.menu_item_id} not found", 404⟩
    | some mi =>
      if order_type = "takeaway" ∧ ¬ (mi.is_available_takeaway ∨ mi.is_takeaway_only) then
        .error ⟨s!"Menu item {mi.name} is not available for takeaway", 400⟩
      else if order_type ≠ "takeaway" ∧ (¬ mi.is_available ∨ mi.is_takeaway_only) then
        .error ⟨s!"Menu item {mi.name} is not available for dine-in", 400⟩
      else
        let quantity : Int := it.quantity.getD 0
        let unit_price := applyOverride (resolveTierPrice mi order_type location_name) it.unit_price
        let total_price := unit_price * (quantity : ℚ)
        .ok ⟨iid, oid, mi.id, quantity, unit_price, total_price, it.special_instructions⟩

/-- Folds `processItem` over the request lines, assigning consecutive line
ids; the first failure aborts the whole loop (first failure wins). -/
def processItems (s : Store) (order_type location_name : String)
    (oid : Nat) : Nat → List ItemReq → Except ErrResp (List OrderItem)
  | _, [] => .ok []
  | iid, it :: rest =>
    match processItem s order_type location_name oid iid it with
    | .error e => .error e
    | .ok oi =>
      match processItems s order_type location_name oid (iid + 1) rest with
      | .error e => .error e
      | .ok ois => .ok (oi :: ois)

/-- Running order total of the item loop (`total_amount += total_price`). -/
def linesTotal (lines : List OrderItem) : ℚ :=
  (lines.map (fun oi => oi.total_price)).sum

/-- Location resolution of `create_order` (orders.py lines 205-220): an
explicit `location_id` is validated; otherwise a dine-in order uses the
requester's location when it resolves, and everything else falls back to
the default shop location (id 1). -/
def resolveLocation (s : Store) (user : User) (order_type : String)
    (location_id : Option Nat) : Except ErrResp (String × Nat) :=
  if natOptTruthy location_id then
    match findLocation s (location_id.getD 0) with
    | none => .error ⟨"Invalid location ID", 400⟩
    | some loc => .ok (loc.name, location_id.getD 0)
  else
    match user.location_id.bind (findLocation s) with
    | some uloc =>
      if order_type = "dine_in" then .ok (uloc.name, user.location_id.getD 0)
      else .ok ("shop", 1)
    | none => .ok ("shop", 1)

/-- The pure computation of `create_order` (orders.py lines 177-363) up to
the final commit: every validation in source order, the new `Order` row
with its totals, and the new `OrderItem` rows. -/
def createOrderE (s : Store) (uid : Nat) (ordNum : String) (req : OrderReq) :
    Except ErrResp (Order × List OrderItem) :=
  if req.items.length = 0 then .error ⟨"Order items are required", 400⟩
  else
    let order_type := req.order_type.getD "dine_in"
    match findUser s uid with
    | none => .error ⟨"User not found", 401⟩
    | some user =>
      match resolveLocation s user order_type req.location_id with
      | .error e => .error e
      | .ok (location_name, actual_location_id) =>
        if order_type = "dine_in" ∧ ¬ natOptTruthy req.table_id then
          .error ⟨"Table ID is required for dine-in orders", 400⟩
        else
          let table_id :=
            if order_type = "takeaway" ∨ order_type = "delivery" then none
            else req.table_id
          let tableOk : Except ErrResp Unit :=
            if natOptTruthy table_id then
              match findTable s (table_id.getD 0) with
              | none => .error ⟨"Table not found", 404⟩
              | some _ => .ok ()
            else .ok ()
          match tableOk with
          | .error e => .error e
          | .ok _ =>
            let customer_name :=
              if order_type = "takeaway" ∨ order_type = "delivery" then
                some (pyOrStr req.customer_name "Guest")
              else none
            match processItems s order_type location_name s.next_order_id s.next_item_id req.items with
            | .error e => .error e
            | .ok lines =>
              let total_amount := linesTotal lines
              let tax_rate : ℚ := 1 / 10
              let tax_amount := total_amount * tax_rate
              let discount_amount := req.discount_amount
              .ok ({ id := s.next_order_id
                     order_number := ordNum
                     table_id := table_id
                     user_id := uid
                     order_type := order_type
                     status := "pending"
                     location_id := actual_location_id
                     subtotal := total_amount
                     tax_amount := tax_amount
                     discount_amount := discount_amount
                     total_amount := total_amount
                     notes := req.notes
                     customer_name := customer_name }, lines)

/-- `create_order` as a state transformer: the single `db.session.commit()`
happens only after every check has passed; every failure path (early
`return` before the commit, or the exception handler's rollback) leaves the
store untouched. -/
def createOrder (s : Store) (uid : Nat) (ordNum : String) (req : OrderReq) :
    Store × Except ErrResp (Order × List OrderItem) :=
  match createOrderE s uid ordNum req with
  | .error e => (s, .error e)
  | .ok (o, lines) =>
    ({ s with orders := s.orders ++ [o]
              order_items := s.order_items ++ lines
              next_order_id := s.next_order_id + 1
              next_item_id := s.next_item_id + lines.length },
     .ok (o, lines))

/-- Python truthiness of an optional string (`data.get('status')`). -/
def strOptTruthy (o : Option String) : Bool :=
  match o with
  | none => false
  | some t => t ≠ ""

/-- Replaces the order row with id `o.id` by `o` (a SQLAlchemy attribute
update followed by commit). -/
def setOrder (s : Store) (o : Order) : Store :=
  { s with orders := s.orders.map (fun x => if x.id = o.id then o else x) }

/-- The statuses accepted by `update_order_status` (orders.py line 571). -/
def validStatuses : List String :=
  ["pending", "confirmed", "preparing", "ready", "served", "cancelled"]

/-- The pure computation of `update_order_status` (orders.py lines
552-602) up to the commit.  The handler performs no transition check: any
status in `validStatuses` is written over any current status.  A missing
requesting user raises `AttributeError` at the role check, caught by the
catch-all handler (rollback, 500). -/
def updateOrderStatusE (s : Store) (uid oid : Nat) (status? : Option String) :
    Except ErrResp Order :=
  match findOrder s oid with
  | none => .error ⟨"Order not found", 404⟩
  | some o =>
    match findUser s uid with
    | none => .error ⟨"internal error", 500⟩
    | some u =>
      if u.role = "waiter" ∧ o.user_id ≠ uid then
        .error ⟨"Insufficient permissions", 403⟩
      else if ¬ strOptTruthy status? then
        .error ⟨"Status is required", 400⟩
      else
        let st := status?.getD ""
        if st ∉ validStatuses then .error ⟨"Invalid status", 400⟩
        else .ok { o with status := st }

/-- `update_order_status` as a state transformer: commit on success,
rollback / no commit on failure. -/
def updateOrderStatus (s : Store) (uid oid : Nat) (status? : Option String) :
    Store × Except ErrResp Order :=
  match updateOrderStatusE s uid oid status? with
  | .error e => (s, .error e)
  | .ok o' => (setOrder s o', .ok o')

/-- The pure computation of `add_order_item` (orders.py lines 604-670) up
to the commit.  The new line is priced at the menu item's base `price` and
gated only on `is_available`; the order's `total_amount` is adjusted
incrementally and `tax_amount` recomputed from it, while `subtotal` is not
touched. -/
def addOrderItemE (s : Store) (uid oid : Nat) (d : ItemReq) :
    Except ErrResp (Order × OrderItem) :=
  match findOrder s oid with
  | none => .error ⟨"Order not found", 404⟩
  | some o =>
    match findUser s uid with
    | none => .error ⟨"internal error", 500⟩
    | some u =>
      if u.role = "waiter" ∧ o.user_id ≠ uid then
        .error ⟨"Insufficient permissions", 403⟩
      else if ¬ (o.status = "pending" ∨ o.status = "confirmed") then
        .error ⟨"Cannot add items to this order", 400⟩
      else if ¬ (d.menu_item_id ≠ 0 ∧ intOptTruthy d.quantity) then
        .error ⟨"Menu item ID and quantity are required", 400⟩
      else
        match findMenuItem s d.menu_item_id with
        | none => .error ⟨"Menu item not found", 404⟩
        | some mi =>
          if ¬ mi.is_available then .error ⟨"Menu item is not available", 400⟩
          else
            let quantity : Int := d.quantity.getD 0
            let unit_price := mi.price
            let total_price := unit_price * (quantity : ℚ)
            let oi : OrderItem :=
              ⟨s.next_item_id, o.id, mi.id, quantity, unit_price, total_price,
               d.special_instructions⟩
            let o' := { o with
              total_amount := o.total_amount + total_price
              tax_amount := (o.total_amount + total_price) * (1 / 10) }
            .ok (o', oi)

/-- `add_order_item` as a state transformer: commit on success, rollback /
no commit on failure. -/
def addOrderItem (s : Store) (uid oid : Nat) (d : ItemReq) :
    Store × Except ErrResp OrderItem :=
  match addOrderItemE s uid oid d with
  | .error e => (s, .error e)
  | .ok (o', oi) =>
    ({ setOrder s o' with
         order_items := s.order_items ++ [oi]
         next_item_id := s.next_item_id + 1 },
     .ok oi)

/-- The pure computation of `remove_order_item` (orders.py lines 672-710)
up to the commit: same mutation window, then `total_amount` is decremented
by the line's `total_price` and `tax_amount` recomputed from the new
total; `subtotal` is not touched. -/
def removeOrderItemE (s : Store) (uid oid iid : Nat) :
    Except ErrResp Order :=
  match findOrder s oid with
  | none => .error ⟨"Order not found", 404⟩
  | some o =>
    match findUser s uid with
    | none => .error ⟨"internal error", 500⟩
    | some u =>
      if u.role = "waiter" ∧ o.user_id ≠ uid then
        .error ⟨"Insufficient permissions", 403⟩
      else if ¬ (o.status = "pending" ∨ o.status = "confirmed") then
        .error ⟨"Cannot remove items from this order", 400⟩
      else
        match findOrderItem s iid oid with
        | none => .error ⟨"Order item not found", 404⟩
        | some oi =>
          .ok { o with
            total_amount := o.total_amount - oi.total_price
            tax_amount := (o.total_amount - oi.total_price) * (1 / 10) }

/-- `remove_order_item` as a state transformer: on success the updated
totals are committed and the line row deleted. -/
def removeOrderItem (s : Store) (uid oid iid : Nat) :
    Store × Except ErrResp Order :=
  match removeOrderItemE s uid oid iid with
  | .error e => (s, .error e)
  | .ok o' =>
    ({ setOrder s o' with
         order_items := s.order_items.eraseP (fun x => x.id = iid && x.order_id = oid) },
     .ok o')

/-- `models.PrinterConfig`. -/
structure PrinterConfig where
  id : Nat
  name : String
  printer_type : String
  ip_address : Option String
  port : Nat
  is_active : Bool
  deriving Repr, DecidableEq

/-- One entry of the `results` list built by `print_order`. -/
structure PrintResult where
  printer_name : String
  printer_type : String
  success : Bool
  message : String
  deriving Repr, DecidableEq

/-- The `print_order` response body: message plus per-printer results. -/
structure PrintResp where
  message : String
  results : List PrintResult
  deriving Repr, DecidableEq

/-- printers.py line 281: a missing, blank, `console`, `stdout` or
`virtual` address designates a virtual console printer. -/
def isVirtualIp (ip : Option String) : Bool :=
  let t := (ip.getD "").trim.toLower
  t = "" || t = "console" || t = "stdout" || t = "virtual"

/-- The printers `print_order` dispatches to (printers.py lines 253-259):
all active printers, or the active printers of the requested type. -/
def eligiblePrinters (printers : List PrinterConfig) (ptype : String) :
    List PrinterConfig :=
  if ptype = "all" then printers.filter (fun p => p.is_active)
  else printers.filter (fun p => p.printer_type = ptype && p.is_active)

/-- One iteration of the `print_order` dispatch loop (printers.py lines
261-331).  A printer whose own type is not kitchen/bar/receipt is skipped
(`continue`, no result); a virtual printer succeeds locally; otherwise the
outcome of `send_to_thermal_printer` — modelled by the `send` oracle, which
returns the `(success, message)` pair and so already captures caught
network exceptions — is recorded.  Per-printer exceptions are caught, so an
attempt always yields at most its own result and never aborts the loop. -/
def attemptPrint (send : PrinterConfig → Bool × String) (p : PrinterConfig) :
    Option PrintResult :=
  if p.printer_type = "kitchen" ∨ p.printer_type = "bar" ∨ p.printer_type = "receipt" then
    if isVirtualIp p.ip_address then
      some ⟨p.name, p.printer_type, true, "Printed to console (direct)"⟩
    else
      some ⟨p.name, p.printer_type, (send p).1, (send p).2⟩
  else none

/-- `print_order` (printers.py lines 239-342): order lookup, printer
selection, independent dispatch to every selected printer, and an HTTP 200
response carrying the per-printer report and a succeeded/total count. -/
def printOrder (s : Store) (printers : List PrinterConfig) (oid : Nat)
    (ptype? : Option String) (send : PrinterConfig → Bool × String) :
    Except ErrResp PrintResp :=
  match findOrder s oid with
  | none => .error ⟨"Order not found", 404⟩
  | some _ =>
    let ptype := ptype?.getD "all"
    let results := (eligiblePrinters printers ptype).filterMap (attemptPrint send)
    let successful := results.filter (fun r => r.success)
    .ok ⟨s!"Print job completed. {successful.length}/{results.length} printers successful.",
         results⟩

/-- Clears a Python-falsy manual price override (absent or `0`). -/
def normalizeOverride (it : ItemReq) : ItemReq :=
  if ratOptTruthy it.unit_price then it else { it with unit_price := none }

/-- Rewrites every menu item's takeaway price, beach-bar price and
takeaway availability fields arbitrarily, leaving id, name, base price and
the general `is_available` flag unchanged.  Used to state that
`add_order_item` never consults those fields. -/
def setMenuTakeawayFields (s : Store) (tp bp : MenuItem → Option ℚ)
    (av tw : MenuItem → Bool) : Store :=
  { s with menu_items := s.menu_items.map (fun mi =>
      { mi with takeaway_price := tp mi, beach_bar_price := bp mi,
                is_available_takeaway := av mi, is_takeaway_only := tw mi }) }

/-! Concrete sample data, used to evaluate the handlers at explicit inputs. -/

def exMenuA : MenuItem := ⟨1, "A", 9/2, none, none, true, true, false⟩

def exMenuB : MenuItem := ⟨2, "B", 6, none, none, true, true, false⟩

def exMenuC : MenuItem := ⟨3, "C", 5, some 4, some 7, true, true, false⟩

def exMenuZ : MenuItem := ⟨4, "Z", 5, some 0, none, true, true, false⟩

def exStore : Store :=
  ⟨[⟨1, "admin", none⟩], [⟨1, "shop"⟩, ⟨2, "beach_bar"⟩], [⟨5, 5⟩],
   [exMenuA, exMenuB, exMenuC, exMenuZ], [], [], 1, 1⟩

def exReqDine : OrderReq :=
  ⟨[⟨1, some 2, none, ""⟩, ⟨2, some 1, none, ""⟩], none, some 5, none, none, 0, ""⟩

def exOrderDine : Order :=
  ⟨1, "ORD-1", some 5, 1, "dine_in", "pending", 1, 15, 3/2, 0, 15, "", none⟩

def exLinesDine : List OrderItem :=
  [⟨1, 1, 1, 2, 9/2, 9, ""⟩, ⟨2, 1, 2, 1, 6, 6, ""⟩]

def exReqTake : OrderReq :=
  ⟨[⟨3, some 3, none, ""⟩], some "takeaway", none, none, none, 0, ""⟩

def exOrderTake : Order :=
  ⟨1, "ORD-2", none, 1, "takeaway", "pending", 1, 12, 6/5, 0, 12, "", some "Guest"⟩

def exLineTake : OrderItem := ⟨1, 1, 3, 3, 4, 12, ""⟩

def exLinesTake : List OrderItem := [exLineTake]

def exOrderZero : Order :=
  ⟨1, "ORD-Z", none, 1, "takeaway", "pending", 1, 5, 1/2, 0, 5, "", some "Guest"⟩

def exLineZero : OrderItem := ⟨1, 1, 4, 1, 5, 5, ""⟩

def exOrderNeg : Order :=
  ⟨1, "ORD-3", some 5, 1, "dine_in", "pending", 1, -9/2, -9/20, 0, -9/2, "", none⟩

def exLineNeg : OrderItem := ⟨1, 1, 1, -1, 9/2, -9/2, ""⟩

def exOrderAfterAdd : Order :=
  ⟨1, "N1", none, 1, "takeaway", "pending", 1, 10, 3/2, 0, 15, "", none⟩

def exOrderAfterRemove : Order :=
  ⟨1, "N1", none, 1, "takeaway", "pending", 1, 10, 0, 0, 0, "", none⟩

def exReqOv : OrderReq :=
  ⟨[⟨1, some 1, some 7, ""⟩], none, some 5, none, none, 0, ""⟩

def exOrderOv : Order :=
  ⟨1, "ORD-O2", some 5, 1, "dine_in", "pending", 1, 7, 7/10, 0, 7, "", none⟩

def exLineOv : OrderItem := ⟨1, 1, 1, 1, 7, 7, ""⟩

def exLinesOv : List OrderItem := [exLineOv]

def exReqNeg : OrderReq :=
  ⟨[⟨1, some (-1), none, ""⟩], none, some 5, none, none, 0, ""⟩

def exReqZero : OrderReq :=
  ⟨[⟨4, some 1, none, ""⟩], some "takeaway", none, none, none, 0, ""⟩

def exReqEmpty : OrderReq := ⟨[], none, some 5, none, none, 0, ""⟩

def exOrderServed : Order :=
  ⟨1, "N1", none, 1, "dine_in", "served", 1, 10, 1, 0, 10, "", none⟩

def exStoreServed : Store := { exStore with orders := [exOrderServed] }

def exOrderCancelled : Order :=
  ⟨1, "N2", none, 1, "dine_in", "cancelled", 1, 10, 1, 0, 10, "", none⟩

def exStoreCancelled : Store := { exStore with orders := [exOrderCancelled] }

def exOrderPending : Order :=
  ⟨1, "N1", none, 1, "takeaway", "pending", 1, 10, 1, 0, 10, "", none⟩

def exLine1 : OrderItem := ⟨1, 1, 1, 1, 10, 10, ""⟩

def exStorePending : Store :=
  { exStore with orders := [exOrderPending], order_items := [exLine1], next_item_id := 2 }

def exAddReq : ItemReq := ⟨3, some 1, none, ""⟩

def exPrinters : List PrinterConfig :=
  [⟨1, "P1", "kitchen", some "10.0.0.1", 9100, true⟩,
   ⟨2, "P2", "bar", some "10.0.0.2", 9100, true⟩,
   ⟨3, "P3", "receipt", some "10.0.0.3", 9100, true⟩]

def exSend : PrinterConfig → Bool × String := fun p =>
  if p.name = "P3" then (false, "connection refused")
  else (true, "Print job sent successfully")

section LoopLemmas

theorem applyOverride_falsy {t : ℚ} {ov : Option ℚ}
    (h : ratOptTruthy ov = false) : applyOverride t ov = t := by
  cases ov with
  | none => rfl
  | some p =>
    simp [ratOptTruthy] at h
    simp [applyOverride, h]

theorem processItem_ok_spec {s : Store} {oty loc : String} {oid iid : Nat}
    {it : ItemReq} {oi : OrderItem}
    (h : processItem s oty loc oid iid it = .ok oi) :
    it.menu_item_id ≠ 0 ∧ intOptTruthy it.quantity = true ∧
    ∃ mi, findMenuItem s it.menu_item_id = some mi ∧
      (oty = "takeaway" → (mi.is_available_takeaway ∨ mi.is_takeaway_only)) ∧
      (oty ≠ "takeaway" → (mi.is_available ∧ ¬ mi.is_takeaway_only)) ∧
      oi = ⟨iid, oid, mi.id, it.quantity.getD 0,
            applyOverride (resolveTierPrice mi oty loc) it.unit_price,
            applyOverride (resolveTierPrice mi oty loc) it.unit_price *
              ((it.quantity.getD 0 : Int) : ℚ),
            it.special_instructions⟩ := by
  unfold processItem at h
  split at h
  · exact absurd h (by simp)
  case isFalse hpresent =>
    push_neg at hpresent
    refine ⟨hpresent.1, hpresent.2, ?_⟩
    split at h
    · exact absurd h (by simp)
    case h_2 mi hmi =>
      refine ⟨mi, hmi, ?_⟩
      split at h
      · exact absurd h (by simp)
      case isFalse htw =>
        split at h
        · exact absurd h (by simp)
        case isFalse hdi =>
          push_neg at htw hdi
          simp only [Except.ok.injEq] at h
          refine ⟨?_, ?_, h.symm⟩
          · intro hty
            by_contra hav
            simp only [Bool.or_eq_true, not_or, Bool.not_eq_true] at hav
            exact absurd (htw hty) (by simp [hav.1, hav.2])
          · intro hty
            have := hdi hty
            constructor
            · by_contra hav
              simp only [Bool.not_eq_true] at hav
              exact absurd this (by simp [hav])
            · intro honly
              exact absurd this (by simp [honly])

theorem processItems_ok_length {s : Store} {oty loc : String} {oid : Nat} :
    ∀ {iid : Nat} {items : List ItemReq} {lines : List OrderItem},
      processItems s oty loc oid iid items = .ok lines →
      lines.length = items.length := by
  intro iid items
  induction items generalizing iid with
  | nil => intro lines h; simp [processItems] at h; simp [← h]
  | cons it rest ih =>
    intro lines h
    unfold processItems at h
    split at h
    · exact absurd h (by simp)
    case h_2 oi hoi =>
      split at h
      · exact absurd h (by simp)
      case h_2 ois hois =>
        simp only [Except.ok.injEq] at h
        subst h
        simp [ih hois]

theorem processItems_ok_get {s : Store} {oty loc : String} {oid : Nat} :
    ∀ {iid : Nat} {items : List ItemReq} {lines : List OrderItem},
      processItems s oty loc oid iid items = .ok lines →
      ∀ i (hi : i < items.length) (hl : i < lines.length),
        processItem s oty loc oid (iid + i) (items.get ⟨i, hi⟩) = .ok (lines.get ⟨i, hl⟩) := by
  intro iid items
  induction items generalizing iid with
  | nil => intro lines _ i hi; exact absurd hi (by simp)
  | cons it rest ih =>
    intro lines h i hi hl
    unfold processItems at h
    split at h
    · exact absurd h (by simp)
    case h_2 oi hoi =>
      split at h
      · exact absurd h (by simp)
      case h_2 ois hois =>
        simp only [Except.ok.injEq] at h
        subst h
        cases i with
        | zero => simpa using hoi
        | succ j =>
          have hj : j < rest.length := by simpa using hi
          have hjl : j < ois.length := by
            have := processItems_ok_length hois
            omega
          have := ih hois j hj hjl
          simpa [Nat.add_assoc, Nat.add_comm 1 j] using this

theorem processItems_ok_forall_mem {s : Store} {oty loc : String} {oid : Nat} :
    ∀ {iid : Nat} {items : List ItemReq} {lines : List OrderItem},
      processItems s oty loc oid iid items = .ok lines →
      ∀ it ∈ items, ∃ iid2 oi, processItem s oty loc oid iid2 it = .ok oi := by
  intro iid items
  induction items generalizing iid with
  | nil => intro lines _ it hit; exact absurd hit (by simp)
  | cons it0 rest ih =>
    intro lines h it hit
    unfold processItems at h
    split at h
    · exact absurd h (by simp)
    case h_2 oi hoi =>
      split at h
      · exact absurd h (by simp)
      case h_2 ois hois =>
        rcases List.mem_cons.mp hit with heq | hmem
        · exact ⟨iid, oi, heq ▸ hoi⟩
        · exact ih hois it hmem

theorem processItems_ok_lines_mem {s : Store} {oty loc : String} {oid : Nat} :
    ∀ {iid : Nat} {items : List ItemReq} {lines : List OrderItem},
      processItems s oty loc oid iid items = .ok lines →
      ∀ oi ∈ lines, ∃ iid2 it, it ∈ items ∧ processItem s oty loc oid iid2 it = .ok oi := by
  intro iid items
  induction items generalizing iid with
  | nil =>
    intro lines h oi hoi
    simp [processItems] at h
    subst h
    exact absurd hoi (by simp)
  | cons it0 rest ih =>
    intro lines h oi hoi
    unfold processItems at h
    split at h
    · exact absurd h (by simp)
    case h_2 oi0 hoi0 =>
      split at h
      · exact absurd h (by simp)
      case h_2 ois hois =>
        simp only [Except.ok.injEq] at h
        subst h
        rcases List.mem_cons.mp hoi with heq | hmem
        · exact ⟨iid, it0, by simp, heq ▸ hoi0⟩
        · obtain ⟨iid2, it, hit, hp⟩ := ih hois oi hmem
          exact ⟨iid2, it, by simp [hit], hp⟩

end LoopLemmas

section CreateOrderLemmas

theorem createOrderE_ok_spec {s : Store} {uid : Nat} {num : String}
    {req : OrderReq} {o : Order} {lines : List OrderItem}
    (h : createOrderE s uid num req = .ok (o, lines)) :
    ∃ user locname locid,
      findUser s uid = some user ∧
      resolveLocation s user (req.order_type.getD "dine_in") req.location_id =
        .ok (locname, locid) ∧
      processItems s (req.order_type.getD "dine_in") locname s.next_order_id
        s.next_item_id req.items = .ok lines ∧
      o.order_type = req.order_type.getD "dine_in" ∧
      o.subtotal = linesTotal lines ∧
      o.total_amount = linesTotal lines ∧
      o.tax_amount = linesTotal lines * (1 / 10) ∧
      o.discount_amount = req.discount_amount ∧
      o.status = "pending" ∧
      o.id = s.next_order_id := by
  unfold createOrderE at h
  split at h
  · exact absurd h (by simp)
  case isFalse hne =>
    split at h
    · exact absurd h (by simp)
    case h_2 user huser =>
      dsimp only at h
      split at h
      · exact absurd h (by simp)
      case h_2 locname locid hloc =>
        split at h
        · exact absurd h (by simp)
        case isFalse htbl =>
          split at h
          · exact absurd h (by simp)
          case h_2 hTableOk =>
            split at h
            · exact absurd h (by simp)
            case h_2 lines0 hlines =>
              simp only [Except.ok.injEq, Prod.mk.injEq] at h
              obtain ⟨ho, hl⟩ := h
              subst hl
              exact ⟨user, locname, locid, huser, hloc, hlines,
                by simp [← ho], by simp [← ho], by simp [← ho],
                by simp [← ho], by simp [← ho], by simp [← ho], by simp [← ho]⟩

theorem createOrder_ok_iff {s : Store} {uid : Nat} {num : String}
    {req : OrderReq} {o : Order} {lines : List OrderItem} :
    (createOrder s uid num req).2 = .ok (o, lines) ↔
      createOrderE s uid num req = .ok (o, lines) := by
  unfold createOrder
  cases hE : createOrderE s uid num req with
  | error e => simp
  | ok p => cases p with
    | mk o2 l2 => simp

theorem createOrder_ok_store {s : Store} {uid : Nat} {num : String}
    {req : OrderReq} {o : Order} {lines : List OrderItem}
    (h : (createOrder s uid num req).2 = .ok (o, lines)) :
    (createOrder s uid num req).1.orders = s.orders ++ [o] ∧
    (createOrder s uid num req).1.order_items = s.order_items ++ lines := by
  have hE := createOrder_ok_iff.mp h
  unfold createOrder
  rw [hE]
  simp

end CreateOrderLemmas

/-- C1: for every successful `create_order`, the persisted order satisfies
`subtotal = Σ line.total_price`, `total_amount = subtotal`, each line's
`total_price = unit_price × quantity`, and `tax_amount = subtotal × 0.10`
(the default tax rate). -/
theorem create_order_totals_correct (s : Store) (uid : Nat) (num : String)
    (req : OrderReq) (o : Order) (lines : List OrderItem)
    (h : (createOrder s uid num req).2 = .ok (o, lines)) :
    o.subtotal = (lines.map (fun li => li.total_price)).sum ∧
    o.total_amount = o.subtotal ∧
    (∀ li ∈ lines, li.total_price = li.unit_price * (li.quantity : ℚ)) ∧
    o.tax_amount = o.subtotal * (1 / 10) ∧
    (createOrder s uid num req).1.orders = s.orders ++ [o] ∧
    (createOrder s uid num req).1.order_items = s.order_items ++ lines := by
  obtain ⟨user, locname, locid, huser, hloc, hlines, hty, hsub, htot, htax, hdisc,
    hstat, hid⟩ := createOrderE_ok_spec (createOrder_ok_iff.mp h)
  have hstore := createOrder_ok_store h
  refine ⟨by rw [hsub]; rfl, by rw [htot, hsub], ?_, by rw [htax, hsub],
    hstore.1, hstore.2⟩
  intro li hli
  obtain ⟨iid2, it, _, hp⟩ := processItems_ok_lines_mem hlines li hli
  obtain ⟨_, _, mi, _, _, _, hoi⟩ := processItem_ok_spec hp
  subst hoi
  rfl

/-- Witness for C1 at the spec's worked example: dine-in order of 2×4.50
and 1×6.00 gives subtotal 15, total 15, tax 1.50. -/
theorem create_order_totals_correct_witness :
    exOrderDine.subtotal = (exLinesDine.map (fun li => li.total_price)).sum ∧
    exOrderDine.total_amount = exOrderDine.subtotal ∧
    (∀ li ∈ exLinesDine, li.total_price = li.unit_price * (li.quantity : ℚ)) ∧
    exOrderDine.tax_amount = exOrderDine.subtotal * (1 / 10) ∧
    (createOrder exStore 1 "ORD-1" exReqDine).1.orders = exStore.orders ++ [exOrderDine] ∧
    (createOrder exStore 1 "ORD-1" exReqDine).1.order_items = exStore.order_items ++ exLinesDine :=
  create_order_totals_correct exStore 1 "ORD-1" exReqDine exOrderDine exLinesDine (by with_unfolding_all decide)

/-- C2: every rejected `create_order` request leaves the store exactly as
it was before the call — no order row, no line rows. -/
theorem create_order_rejected_no_persist (s : Store) (uid : Nat) (num : String)
    (req : OrderReq) (e : ErrResp)
    (h : (createOrder s uid num req).2 = .error e) :
    (createOrder s uid num req).1 = s := by
  cases hE : createOrderE s uid num req with
  | error e2 =>
    unfold createOrder
    rw [hE]
  | ok p =>
    unfold createOrder at h
    rw [hE] at h
    cases p with
    | mk o l => simp at h

/-- Witness for C2: an empty-items request is rejected and the store is
unchanged. -/
theorem create_order_rejected_no_persist_witness :
    (createOrder exStore 1 "ORD-E" exReqEmpty).1 = exStore :=
  create_order_rejected_no_persist exStore 1 "ORD-E" exReqEmpty
    ⟨"Order items are required", 400⟩ (by with_unfolding_all decide)

/-- C3 counterexample: a takeaway order whose menu item has
`takeaway_price` set to `0` prices the line at the base price (5), not at
the set takeaway price (0) — the Python `or` treats a zero price as
unset. -/
theorem takeaway_price_zero_cex :
    (createOrder exStore 1 "ORD-Z" exReqZero).2 = .ok (exOrderZero, [exLineZero]) ∧
    findMenuItem exStore 4 = some exMenuZ ∧
    exMenuZ.takeaway_price = some 0 ∧
    exLineZero.unit_price = exMenuZ.price ∧
    some exLineZero.unit_price ≠ exMenuZ.takeaway_price := by
  with_unfolding_all decide

/-- C3 (amended): for a takeaway order line with no (truthy) manual
override, the unit price is the item's takeaway price when it is set and
non-zero, else the base price; the beach-bar price is never consulted
(the conclusion holds for every store, hence every `beach_bar_price`). -/
theorem takeaway_unit_price_resolution (s : Store) (uid : Nat) (num : String)
    (req : OrderReq) (o : Order) (lines : List OrderItem) (i : Nat) (mi : MenuItem)
    (hty : req.order_type = some "takeaway")
    (h : (createOrder s uid num req).2 = .ok (o, lines))
    (hi : i < req.items.length) (hl : i < lines.length)
    (hov : ratOptTruthy (req.items.get ⟨i, hi⟩).unit_price = false)
    (hmi : findMenuItem s (req.items.get ⟨i, hi⟩).menu_item_id = some mi) :
    (lines.get ⟨i, hl⟩).unit_price = pyOrQ mi.takeaway_price mi.price := by
  obtain ⟨user, locname, locid, huser, hloc, hlines, _⟩ :=
    createOrderE_ok_spec (createOrder_ok_iff.mp h)
  rw [hty, Option.getD_some] at hlines
  have hp := processItems_ok_get hlines i hi hl
  obtain ⟨_, _, mi2, hmi2, _, _, hoi⟩ := processItem_ok_spec hp
  rw [hmi] at hmi2
  obtain rfl : mi = mi2 := by
    simpa using hmi2
  rw [hoi]
  show applyOverride (resolveTierPrice mi "takeaway" locname)
      (req.items.get ⟨i, hi⟩).unit_price = pyOrQ mi.takeaway_price mi.price
  rw [applyOverride_falsy hov]
  simp [resolveTierPrice]

/-- Witness for C3 (amended) at the spec's example: takeaway price 4.00,
base 5.00, quantity 3 — the line is priced 4.00. -/
theorem takeaway_unit_price_resolution_witness :
    exLineTake.unit_price = pyOrQ exMenuC.takeaway_price exMenuC.price := by
  have h := takeaway_unit_price_resolution exStore 1 "ORD-2" exReqTake exOrderTake
    exLinesTake 0 exMenuC rfl (by with_unfolding_all decide) (by decide) (by decide)
    (by decide) (by with_unfolding_all decide)
  simpa [exLinesTake] using h

/-- C4: on an order whose status is neither `pending` nor `confirmed`,
every add-item and every remove-item attempt fails and leaves the store —
hence the order's totals and line set — unchanged. -/
theorem mutation_rejected_outside_window :
    (∀ (s : Store) (uid oid : Nat) (d : ItemReq) (o : Order),
      findOrder s oid = some o → o.status ≠ "pending" → o.status ≠ "confirmed" →
      (addOrderItem s uid oid d).1 = s ∧
      ∃ e, (addOrderItem s uid oid d).2 = .error e) ∧
    (∀ (s : Store) (uid oid iid : Nat) (o : Order),
      findOrder s oid = some o → o.status ≠ "pending" → o.status ≠ "confirmed" →
      (removeOrderItem s uid oid iid).1 = s ∧
      ∃ e, (removeOrderItem s uid oid iid).2 = .error e) := by
  constructor
  · intro s uid oid d o h1 h2 h3
    have hE : ∃ e, addOrderItemE s uid oid d = .error e := by
      unfold addOrderItemE
      rw [h1]
      cases hu : findUser s uid with
      | none => exact ⟨_, rfl⟩
      | some u =>
        by_cases hperm : (u.role = "waiter" ∧ o.user_id ≠ uid)
        · simp [hperm]
        · have hcond : ¬ (o.status = "pending" ∨ o.status = "confirmed") := by
            rintro (hc | hc)
            · exact h2 hc
            · exact h3 hc
          simp [hperm, hcond]
    obtain ⟨e, hE⟩ := hE
    unfold addOrderItem
    rw [hE]
    exact ⟨rfl, e, rfl⟩
  · intro s uid oid iid o h1 h2 h3
    have hE : ∃ e, removeOrderItemE s uid oid iid = .error e := by
      unfold removeOrderItemE
      rw [h1]
      cases hu : findUser s uid with
      | none => exact ⟨_, rfl⟩
      | some u =>
        by_cases hperm : (u.role = "waiter" ∧ o.user_id ≠ uid)
        · simp [hperm]
        · have hcond : ¬ (o.status = "pending" ∨ o.status = "confirmed") := by
            rintro (hc | hc)
            · exact h2 hc
            · exact h3 hc
          simp [hperm, hcond]
    obtain ⟨e, hE⟩ := hE
    unfold removeOrderItem
    rw [hE]
    exact ⟨rfl, e, rfl⟩

/-- Witness for C4: both mutations on a `served` order are rejected and
the store is unchanged. -/
theorem mutation_rejected_outside_window_witness :
    ((addOrderItem exStoreServed 1 1 exAddReq).1 = exStoreServed ∧
      ∃ e, (addOrderItem exStoreServed 1 1 exAddReq).2 = .error e) ∧
    ((removeOrderItem exStoreServed 1 1 1).1 = exStoreServed ∧
      ∃ e, (removeOrderItem exStoreServed 1 1 1).2 = .error e) :=
  ⟨mutation_rejected_outside_window.1 exStoreServed 1 1 exAddReq exOrderServed
     (by with_unfolding_all decide) (by decide) (by decide),
   mutation_rejected_outside_window.2 exStoreServed 1 1 1 exOrderServed
     (by with_unfolding_all decide) (by decide) (by decide)⟩

/-- C6 counterexample: a `served` order is not terminal — a status update
back to `pending` succeeds and overwrites the stored status. -/
theorem served_not_terminal_cex :
    (updateOrderStatus exStoreServed 1 1 (some "pending")).2 =
      .ok { exOrderServed with status := "pending" } ∧
    (updateOrderStatus exStoreServed 1 1 (some "pending")).1.orders.map Order.status =
      ["pending"] ∧
    exOrderServed.status = "served" := by
  with_unfolding_all decide

/-- C6 (amended): `update_order_status` enforces no state machine at all:
for an existing order — whatever its current status, `served` and
`cancelled` included — any requested status in the valid list is accepted
and stored verbatim (given an existing, permitted requester), while a
status outside the list is rejected with the store unchanged. -/
theorem status_update_unrestricted :
    (∀ (s : Store) (uid oid : Nat) (st : String) (o : Order) (u : User),
      findOrder s oid = some o → findUser s uid = some u →
      ¬ (u.role = "waiter" ∧ o.user_id ≠ uid) → st ∈ validStatuses →
      (updateOrderStatus s uid oid (some st)).2 = .ok { o with status := st } ∧
      (updateOrderStatus s uid oid (some st)).1 = setOrder s { o with status := st }) ∧
    (∀ (s : Store) (uid oid : Nat) (st : String),
      st ∉ validStatuses →
      (updateOrderStatus s uid oid (some st)).1 = s ∧
      ∃ e, (updateOrderStatus s uid oid (some st)).2 = .error e) := by
  constructor
  · intro s uid oid st o u h1 h2 hperm hst
    have hne : st ≠ "" := by
      intro he
      rw [he] at hst
      simp [validStatuses] at hst
    have hE : updateOrderStatusE s uid oid (some st) = .ok { o with status := st } := by
      unfold updateOrderStatusE
      rw [h1, h2]
      simp [hperm, strOptTruthy, hne, hst]
    unfold updateOrderStatus
    rw [hE]
    exact ⟨rfl, rfl⟩
  · intro s uid oid st hst
    have hE : ∃ e, updateOrderStatusE s uid oid (some st) = .error e := by
      unfold updateOrderStatusE
      cases h1 : findOrder s oid with
      | none => exact ⟨_, rfl⟩
      | some o =>
        cases h2 : findUser s uid with
        | none => exact ⟨_, rfl⟩
        | some u =>
          by_cases hperm : (u.role = "waiter" ∧ o.user_id ≠ uid)
          · simp [hperm]
          · by_cases hne : strOptTruthy (some st) = true
            · simp [hperm, hne, hst]
            · simp [hperm, hne]
    obtain ⟨e, hE⟩ := hE
    unfold updateOrderStatus
    rw [hE]
    exact ⟨rfl, e, rfl⟩

/-- Witness for C6 (amended): a `cancelled` order is moved to `preparing`,
and a bogus status is rejected without touching the store. -/
theorem status_update_unrestricted_witness :
    ((updateOrderStatus exStoreCancelled 1 1 (some "preparing")).2 =
        .ok { exOrderCancelled with status := "preparing" } ∧
      (updateOrderStatus exStoreCancelled 1 1 (some "preparing")).1 =
        setOrder exStoreCancelled { exOrderCancelled with status := "preparing" }) ∧
    ((updateOrderStatus exStoreCancelled 1 1 (some "bogus")).1 = exStoreCancelled ∧
      ∃ e, (updateOrderStatus exStoreCancelled 1 1 (some "bogus")).2 = .error e) :=
  ⟨status_update_unrestricted.1 exStoreCancelled 1 1 "preparing" exOrderCancelled
     ⟨1, "admin", none⟩ (by with_unfolding_all decide) (by with_unfolding_all decide)
     (by decide) (by decide),
   status_update_unrestricted.2 exStoreCancelled 1 1 "bogus" (by decide)⟩

section MutationLemmas

theorem addOrderItemE_ok_spec {s : Store} {uid oid : Nat} {d : ItemReq}
    {o' : Order} {oi : OrderItem}
    (h : addOrderItemE s uid oid d = .ok (o', oi)) :
    ∃ o u mi, findOrder s oid = some o ∧ findUser s uid = some u ∧
      (o.status = "pending" ∨ o.status = "confirmed") ∧
      findMenuItem s d.menu_item_id = some mi ∧
      mi.is_available = true ∧
      oi = ⟨s.next_item_id, o.id, mi.id, d.quantity.getD 0, mi.price,
            mi.price * ((d.quantity.getD 0 : Int) : ℚ), d.special_instructions⟩ ∧
      o' = { o with
        total_amount := o.total_amount + mi.price * ((d.quantity.getD 0 : Int) : ℚ)
        tax_amount :=
          (o.total_amount + mi.price * ((d.quantity.getD 0 : Int) : ℚ)) * (1 / 10) } := by
  unfold addOrderItemE at h
  split at h
  · exact absurd h (by simp)
  case h_2 o ho =>
    split at h
    · exact absurd h (by simp)
    case h_2 u hu =>
      split at h
      · exact absurd h (by simp)
      case isFalse hperm =>
        split at h
        · exact absurd h (by simp)
        case isFalse hstat =>
          split at h
          · exact absurd h (by simp)
          case isFalse hpres =>
            split at h
            · exact absurd h (by simp)
            case h_2 mi hmi =>
              split at h
              · exact absurd h (by simp)
              case isFalse hav =>
                dsimp only at h
                simp only [Except.ok.injEq, Prod.mk.injEq] at h
                refine ⟨o, u, mi, ho, hu, not_not.mp hstat, hmi, ?_, h.2.symm, h.1.symm⟩
                have := not_not.mp hav
                simpa using this

theorem addOrderItem_ok_inv {s : Store} {uid oid : Nat} {d : ItemReq}
    {oi : OrderItem} (h : (addOrderItem s uid oid d).2 = .ok oi) :
    ∃ o', addOrderItemE s uid oid d = .ok (o', oi) := by
  unfold addOrderItem at h
  cases hE : addOrderItemE s uid oid d with
  | error e => rw [hE] at h; simp at h
  | ok p =>
    cases p with
    | mk o' oi2 =>
      rw [hE] at h
      simp only at h
      have hoi : oi2 = oi := by simpa using h
      exact ⟨o', by rw [hoi]⟩

theorem addOrderItem_ok_store {s : Store} {uid oid : Nat} {d : ItemReq}
    {o' : Order} {oi : OrderItem}
    (hE : addOrderItemE s uid oid d = .ok (o', oi)) :
    (addOrderItem s uid oid d).1 =
      { setOrder s o' with
          order_items := s.order_items ++ [oi]
          next_item_id := s.next_item_id + 1 } := by
  unfold addOrderItem
  rw [hE]

theorem removeOrderItemE_ok_spec {s : Store} {uid oid iid : Nat} {o' : Order}
    (h : removeOrderItemE s uid oid iid = .ok o') :
    ∃ o u oi, findOrder s oid = some o ∧ findUser s uid = some u ∧
      (o.status = "pending" ∨ o.status = "confirmed") ∧
      findOrderItem s iid oid = some oi ∧
      o' = { o with
        total_amount := o.total_amount - oi.total_price
        tax_amount := (o.total_amount - oi.total_price) * (1 / 10) } := by
  unfold removeOrderItemE at h
  split at h
  · exact absurd h (by simp)
  case h_2 o ho =>
    split at h
    · exact absurd h (by simp)
    case h_2 u hu =>
      split at h
      · exact absurd h (by simp)
      case isFalse hperm =>
        split at h
        · exact absurd h (by simp)
        case isFalse hstat =>
          split at h
          · exact absurd h (by simp)
          case h_2 oi hoi =>
            simp only [Except.ok.injEq] at h
            exact ⟨o, u, oi, ho, hu, not_not.mp hstat, hoi, h.symm⟩

theorem removeOrderItem_ok_inv {s : Store} {uid oid iid : Nat} {o' : Order}
    (h : (removeOrderItem s uid oid iid).2 = .ok o') :
    removeOrderItemE s uid oid iid = .ok o' := by
  unfold removeOrderItem at h
  cases hE : removeOrderItemE s uid oid iid with
  | error e => rw [hE] at h; simp at h
  | ok o2 =>
    rw [hE] at h
    have ho2 : o2 = o' := by simpa using h
    rw [ho2]

theorem removeOrderItem_ok_store {s : Store} {uid oid iid : Nat} {o' : Order}
    (hE : removeOrderItemE s uid oid iid = .ok o') :
    (removeOrderItem s uid oid iid).1 =
      { setOrder s o' with
          order_items :=
            s.order_items.eraseP (fun x => x.id = iid && x.order_id = oid) } := by
  unfold removeOrderItem
  rw [hE]

theorem find?_map_set (l : List Order) (oid : Nat) (o o' : Order)
    (h : l.find? (fun x => x.id = oid) = some o) (hid : o'.id = o.id) :
    (l.map (fun x => if x.id = o'.id then o' else x)).find?
      (fun x => x.id = oid) = some o' := by
  have hoid : o.id = oid := by simpa using List.find?_some h
  induction l with
  | nil => simp at h
  | cons a l ih =>
    by_cases ha : a.id = oid
    · rw [List.find?_cons_of_pos _ (by simp [ha])] at h
      have hao : a = o := by simpa using h
      subst hao
      rw [List.map_cons, if_pos (by rw [hid])]
      exact List.find?_cons_of_pos _ (by simp [hid, hoid])
    · rw [List.find?_cons_of_neg _ (by simp [ha])] at h
      have hne : ¬ a.id = o'.id := by
        rw [hid, hoid]
        exact ha
      rw [List.map_cons, if_neg hne, List.find?_cons_of_neg _ (by simp [ha])]
      exact ih h

theorem findOrder_setOrder {s : Store} {oid : Nat} {o o' : Order}
    (h : findOrder s oid = some o) (hid : o'.id = o.id) :
    findOrder (setOrder s o') oid = some o' := by
  unfold findOrder setOrder at *
  exact find?_map_set s.orders oid o o' h hid

theorem linesTotal_append (l1 l2 : List OrderItem) :
    linesTotal (l1 ++ l2) = linesTotal l1 + linesTotal l2 := by
  simp [linesTotal]

theorem linesTotal_filter_eraseP (l : List OrderItem)
    (p q : OrderItem → Bool) (oi : OrderItem)
    (hpq : ∀ x, p x = true → q x = true)
    (h : l.find? p = some oi) :
    linesTotal ((l.eraseP p).filter q) =
      linesTotal (l.filter q) - oi.total_price := by
  induction l with
  | nil => simp at h
  | cons a l ih =>
    by_cases hp : p a = true
    · rw [List.find?_cons_of_pos _ hp] at h
      have hao : a = oi := by simpa using h
      subst hao
      rw [List.eraseP_cons_of_pos hp, List.filter_cons_of_pos (hpq a hp)]
      simp [linesTotal]
    · rw [List.find?_cons_of_neg _ (by simpa using hp)] at h
      rw [List.eraseP_cons_of_neg (by simpa using hp)]
      by_cases hq : q a = true
      · rw [List.filter_cons_of_pos hq, List.filter_cons_of_pos hq]
        have := ih h
        simp only [linesTotal, List.map_cons, List.sum_cons] at this ⊢
        rw [this]
        ring
      · rw [List.filter_cons_of_neg (by simpa using hq),
            List.filter_cons_of_neg (by simpa using hq)]
        exact ih h

end MutationLemmas

/-- C5 counterexample: a successful `add_order_item` leaves `subtotal`
untouched (10) while the line set now sums to 15, so `subtotal` is not
recomputed from the lines and `total_amount` no longer equals it. -/
theorem add_item_totals_not_from_scratch_cex :
    (addOrderItem exStorePending 1 1 exAddReq).2 = .ok ⟨2, 1, 3, 1, 5, 5, ""⟩ ∧
    findOrder (addOrderItem exStorePending 1 1 exAddReq).1 1 = some exOrderAfterAdd ∧
    linesTotal (orderLines (addOrderItem exStorePending 1 1 exAddReq).1 1) = 15 ∧
    exOrderAfterAdd.subtotal = 10 ∧
    exOrderAfterAdd.total_amount ≠ exOrderAfterAdd.subtotal := by
  with_unfolding_all decide

/-- C5 (amended): `add_order_item` / `remove_order_item` adjust
`total_amount` incrementally by the line's `total_price` and recompute
`tax_amount` from the new total; `subtotal` is left unchanged.  Provided
`total_amount` equalled the sum of the order's line totals beforehand, the
stored `total_amount` again equals the sum of the stored lines and
`tax_amount` equals 10% of it — but `subtotal` keeps its old value rather
than being recomputed. -/
theorem totals_after_mutation :
    (∀ (s : Store) (uid oid : Nat) (d : ItemReq) (oi : OrderItem) (o : Order),
      findOrder s oid = some o →
      (addOrderItem s uid oid d).2 = .ok oi →
      o.total_amount = linesTotal (orderLines s oid) →
      ∃ o2, findOrder (addOrderItem s uid oid d).1 oid = some o2 ∧
        o2.total_amount = linesTotal (orderLines (addOrderItem s uid oid d).1 oid) ∧
        o2.tax_amount = o2.total_amount * (1 / 10) ∧
        o2.subtotal = o.subtotal) ∧
    (∀ (s : Store) (uid oid iid : Nat) (o o2 : Order),
      findOrder s oid = some o →
      (removeOrderItem s uid oid iid).2 = .ok o2 →
      o.total_amount = linesTotal (orderLines s oid) →
      findOrder (removeOrderItem s uid oid iid).1 oid = some o2 ∧
        o2.total_amount = linesTotal (orderLines (removeOrderItem s uid oid iid).1 oid) ∧
        o2.tax_amount = o2.total_amount * (1 / 10) ∧
        o2.subtotal = o.subtotal) := by
  constructor
  · intro s uid oid d oi o ho h hinv
    obtain ⟨o', hE⟩ := addOrderItem_ok_inv h
    obtain ⟨o0, u, mi, ho0, hu, hstat, hmi, hav, hoi, ho'⟩ := addOrderItemE_ok_spec hE
    rw [ho] at ho0
    obtain rfl : o = o0 := by simpa using ho0
    have hs := addOrderItem_ok_store hE
    have hOid : o.id = oid := by
      have := List.find?_some ho
      simpa using this
    have hBid : o'.id = o.id := by rw [ho']
    have hoiOid : oi.order_id = oid := by rw [hoi]; exact hOid
    refine ⟨o', ?_, ?_, ?_, ?_⟩
    · rw [hs]
      show findOrder (setOrder s o') oid = some o'
      exact findOrder_setOrder ho hBid
    · rw [hs]
      show o'.total_amount = linesTotal ((s.order_items ++ [oi]).filter
        (fun it => it.order_id = oid))
      rw [List.filter_append, List.filter_cons_of_pos (by simp [hoiOid]),
        List.filter_nil, linesTotal_append]
      have hlt : linesTotal [oi] = oi.total_price := by simp [linesTotal]
      rw [hlt, ho']
      have : oi.total_price = mi.price * ((d.quantity.getD 0 : Int) : ℚ) := by
        rw [hoi]
      rw [← this] at *
      show o.total_amount + oi.total_price =
        linesTotal (s.order_items.filter (fun it => it.order_id = oid)) + oi.total_price
      rw [hinv]
      rfl
    · rw [ho']
    · rw [ho']
  · intro s uid oid iid o o2 ho h hinv
    have hE := removeOrderItem_ok_inv h
    obtain ⟨o0, u, oi, ho0, hu, hstat, hoi, ho2⟩ := removeOrderItemE_ok_spec hE
    rw [ho] at ho0
    obtain rfl : o = o0 := by simpa using ho0
    have hs := removeOrderItem_ok_store hE
    have hOid : o.id = oid := by
      have := List.find?_some ho
      simpa using this
    have hBid : o2.id = o.id := by rw [ho2]
    refine ⟨?_, ?_, ?_, ?_⟩
    · rw [hs]
      show findOrder (setOrder s o2) oid = some o2
      exact findOrder_setOrder ho hBid
    · rw [hs]
      show o2.total_amount = linesTotal
        ((s.order_items.eraseP (fun x => x.id = iid && x.order_id = oid)).filter
          (fun it => it.order_id = oid))
      rw [linesTotal_filter_eraseP _ _ _ oi
        (by
          intro x hx
          simp only [Bool.and_eq_true, decide_eq_true_eq] at hx
          simpa using hx.2)
        hoi]
      rw [ho2]
      show o.total_amount - oi.total_price =
        linesTotal (s.order_items.filter (fun it => it.order_id = oid)) - oi.total_price
      rw [hinv]
      rfl
    · rw [ho2]
    · rw [ho2]

/-- Witness for C5 (amended): adding one line of 5 to an order whose total
was the line sum 10 yields total 15 = new line sum, tax 1.5, and the old
subtotal 10; removing a line similarly. -/
theorem totals_after_mutation_witness :
    (∃ o2, findOrder (addOrderItem exStorePending 1 1 exAddReq).1 1 = some o2 ∧
      o2.total_amount =
        linesTotal (orderLines (addOrderItem exStorePending 1 1 exAddReq).1 1) ∧
      o2.tax_amount = o2.total_amount * (1 / 10) ∧
      o2.subtotal = exOrderPending.subtotal) ∧
    (findOrder (removeOrderItem exStorePending 1 1 1).1 1 = some exOrderAfterRemove ∧
      exOrderAfterRemove.total_amount =
        linesTotal (orderLines (removeOrderItem exStorePending 1 1 1).1 1) ∧
      exOrderAfterRemove.tax_amount = exOrderAfterRemove.total_amount * (1 / 10) ∧
      exOrderAfterRemove.subtotal = exOrderPending.subtotal) :=
  ⟨totals_after_mutation.1 exStorePending 1 1 exAddReq ⟨2, 1, 3, 1, 5, 5, ""⟩
     exOrderPending (by with_unfolding_all decide) (by with_unfolding_all decide)
     (by with_unfolding_all decide),
   totals_after_mutation.2 exStorePending 1 1 1 exOrderPending exOrderAfterRemove
     (by with_unfolding_all decide) (by with_unfolding_all decide)
     (by with_unfolding_all decide)⟩

/-- C8 counterexample: a line with quantity `-1` passes every check —
`create_order` accepts the order and stores a line with negative quantity
and negative total, so quantity is not validated to be positive. -/
theorem negative_quantity_accepted_cex :
    (createOrder exStore 1 "ORD-3" exReqNeg).2 = .ok (exOrderNeg, [exLineNeg]) ∧
    exLineNeg.quantity = -1 ∧
    exLineNeg.quantity < 0 ∧
    exLineNeg.total_price < 0 := by
  with_unfolding_all decide

/-- C8 (amended): every line of a successfully created order referenced an
existing menu item whose availability matches the order type, and carried
a present, non-zero quantity — but the quantity is only checked for Python
truthiness, so negative quantities are accepted. -/
theorem create_order_line_validation (s : Store) (uid : Nat) (num : String)
    (req : OrderReq) (o : Order) (lines : List OrderItem)
    (h : (createOrder s uid num req).2 = .ok (o, lines)) :
    ∀ it ∈ req.items, it.menu_item_id ≠ 0 ∧ intOptTruthy it.quantity = true ∧
      ∃ mi, findMenuItem s it.menu_item_id = some mi ∧
        (req.order_type.getD "dine_in" = "takeaway" →
          (mi.is_available_takeaway ∨ mi.is_takeaway_only)) ∧
        (req.order_type.getD "dine_in" ≠ "takeaway" →
          (mi.is_available ∧ ¬ mi.is_takeaway_only)) := by
  intro it hit
  obtain ⟨user, locname, locid, _, _, hlines, _⟩ :=
    createOrderE_ok_spec (createOrder_ok_iff.mp h)
  obtain ⟨iid2, oi, hp⟩ := processItems_ok_forall_mem hlines it hit
  obtain ⟨h1, h2, mi, hmi, h3, h4, _⟩ := processItem_ok_spec hp
  exact ⟨h1, h2, mi, hmi, h3, h4⟩

/-- Witness for C8 (amended): the first line of the dine-in example order
passes all validations. -/
theorem create_order_line_validation_witness :
    (⟨1, some 2, none, ""⟩ : ItemReq).menu_item_id ≠ 0 ∧
    intOptTruthy (⟨1, some 2, none, ""⟩ : ItemReq).quantity = true ∧
    ∃ mi, findMenuItem exStore (⟨1, some 2, none, ""⟩ : ItemReq).menu_item_id = some mi ∧
      (exReqDine.order_type.getD "dine_in" = "takeaway" →
        (mi.is_available_takeaway ∨ mi.is_takeaway_only)) ∧
      (exReqDine.order_type.getD "dine_in" ≠ "takeaway" →
        (mi.is_available ∧ ¬ mi.is_takeaway_only)) :=
  create_order_line_validation exStore 1 "ORD-1" exReqDine exOrderDine exLinesDine
    (by with_unfolding_all decide) ⟨1, some 2, none, ""⟩ (by with_unfolding_all decide)

section OverrideLemmas

theorem processItem_normalizeOverride (s : Store) (oty loc : String)
    (oid iid : Nat) (it : ItemReq) :
    processItem s oty loc oid iid (normalizeOverride it) =
      processItem s oty loc oid iid it := by
  unfold normalizeOverride
  split_ifs with hov
  · rfl
  · obtain ⟨mid, q, ov, si⟩ := it
    cases ov with
    | none => rfl
    | some p =>
      have hp : p = 0 := by
        simpa [ratOptTruthy] using hov
      subst hp
      cases hm : findMenuItem s mid with
      | none => simp [processItem, hm]
      | some mi => simp [processItem, hm, applyOverride]

theorem processItems_normalizeOverride (s : Store) (oty loc : String)
    (oid : Nat) :
    ∀ (iid : Nat) (items : List ItemReq),
      processItems s oty loc oid iid (items.map normalizeOverride) =
        processItems s oty loc oid iid items := by
  intro iid items
  induction items generalizing iid with
  | nil => rfl
  | cons it rest ih =>
    simp only [List.map_cons]
    unfold processItems
    rw [processItem_normalizeOverride, ih]

theorem createOrder_normalizeOverride (s : Store) (uid : Nat) (num : String)
    (req : OrderReq) :
    createOrder s uid num { req with items := req.items.map normalizeOverride } =
      createOrder s uid num req := by
  have hE : createOrderE s uid num
      { req with items := req.items.map normalizeOverride } =
      createOrderE s uid num req := by
    unfold createOrderE
    simp only [List.length_map, processItems_normalizeOverride]
  unfold createOrder
  rw [hE]

end OverrideLemmas

/-- C9: a manual unit-price override that is Python-falsy (absent or `0`)
is ignored — normalizing such overrides away does not change the result of
`create_order` at all — while a non-zero override is used verbatim as the
line's unit price.  In particular a zero unit price can never be injected
through the override mechanism. -/
theorem falsy_override_ignored :
    (∀ (s : Store) (uid : Nat) (num : String) (req : OrderReq),
      createOrder s uid num { req with items := req.items.map normalizeOverride } =
        createOrder s uid num req) ∧
    (∀ (s : Store) (uid : Nat) (num : String) (req : OrderReq) (o : Order)
        (lines : List OrderItem) (i : Nat) (p : ℚ)
        (hi : i < req.items.length) (hl : i < lines.length),
      (createOrder s uid num req).2 = .ok (o, lines) →
      (req.items.get ⟨i, hi⟩).unit_price = some p → p ≠ 0 →
      (lines.get ⟨i, hl⟩).unit_price = p) := by
  constructor
  · exact createOrder_normalizeOverride
  · intro s uid num req o lines i p hi hl h hov hp0
    obtain ⟨user, locname, locid, _, _, hlines, _⟩ :=
      createOrderE_ok_spec (createOrder_ok_iff.mp h)
    have hp := processItems_ok_get hlines i hi hl
    obtain ⟨_, _, mi, _, _, _, hoi⟩ := processItem_ok_spec hp
    rw [hoi]
    show applyOverride (resolveTierPrice mi (req.order_type.getD "dine_in") locname)
        (req.items.get ⟨i, hi⟩).unit_price = p
    rw [hov]
    simp [applyOverride, hp0]

/-- Witness for C9: a zero override on the takeaway-price-zero request is
a no-op, and a non-zero override of 7 prices the line at 7. -/
theorem falsy_override_ignored_witness :
    (createOrder exStore 1 "ORD-O"
        { exReqZero with items := exReqZero.items.map normalizeOverride } =
      createOrder exStore 1 "ORD-O" exReqZero) ∧
    exLineOv.unit_price = 7 := by
  constructor
  · exact falsy_override_ignored.1 exStore 1 "ORD-O" exReqZero
  · have h := falsy_override_ignored.2 exStore 1 "ORD-O2" exReqOv exOrderOv
      exLinesOv 0 7 (by decide) (by decide) (by with_unfolding_all decide)
      (by with_unfolding_all decide) (by with_unfolding_all decide)
    simpa [exLinesOv] using h

section TakeawayFieldLemmas

theorem find?_id_map_menu (g : MenuItem → MenuItem)
    (hg : ∀ mi, (g mi).id = mi.id) (mid : Nat) :
    ∀ l : List MenuItem,
      (l.map g).find? (fun m => m.id = mid) =
        (l.find? (fun m => m.id = mid)).map g := by
  intro l
  induction l with
  | nil => rfl
  | cons a l ih =>
    rw [List.map_cons]
    by_cases ha : a.id = mid
    · rw [List.find?_cons_of_pos _ (by simp [hg, ha]),
        List.find?_cons_of_pos _ (by simp [ha])]
      rfl
    · rw [List.find?_cons_of_neg _ (by simp [hg, ha]),
        List.find?_cons_of_neg _ (by simp [ha])]
      exact ih

theorem findMenuItem_setMenuTakeawayFields (s : Store)
    (tp bp : MenuItem → Option ℚ) (av tw : MenuItem → Bool) (mid : Nat) :
    findMenuItem (setMenuTakeawayFields s tp bp av tw) mid =
      (findMenuItem s mid).map (fun mi =>
        { mi with takeaway_price := tp mi, beach_bar_price := bp mi,
                  is_available_takeaway := av mi, is_takeaway_only := tw mi }) := by
  unfold findMenuItem setMenuTakeawayFields
  exact find?_id_map_menu (fun mi =>
    { mi with takeaway_price := tp mi, beach_bar_price := bp mi,
              is_available_takeaway := av mi, is_takeaway_only := tw mi })
    (fun mi => rfl) mid s.menu_items

theorem addOrderItemE_takeaway_fields_irrelevant
    (tp bp : MenuItem → Option ℚ) (av tw : MenuItem → Bool)
    (s : Store) (uid oid : Nat) (d : ItemReq) :
    addOrderItemE (setMenuTakeawayFields s tp bp av tw) uid oid d =
      addOrderItemE s uid oid d := by
  have hfo : findOrder (setMenuTakeawayFields s tp bp av tw) oid =
      findOrder s oid := rfl
  have hfu : findUser (setMenuTakeawayFields s tp bp av tw) uid =
      findUser s uid := rfl
  have hni : (setMenuTakeawayFields s tp bp av tw).next_item_id =
      s.next_item_id := rfl
  have hfm := findMenuItem_setMenuTakeawayFields s tp bp av tw d.menu_item_id
  unfold addOrderItemE
  simp only [hfo, hfu, hni, hfm]
  cases ho : findOrder s oid with
  | none => rfl
  | some o =>
    cases hu : findUser s uid with
    | none => rfl
    | some u =>
      split_ifs <;>
        first
          | rfl
          | (cases hm : findMenuItem s d.menu_item_id <;> rfl)

theorem addOrderItem_takeaway_fields_irrelevant
    (tp bp : MenuItem → Option ℚ) (av tw : MenuItem → Bool)
    (s : Store) (uid oid : Nat) (d : ItemReq) :
    (addOrderItem (setMenuTakeawayFields s tp bp av tw) uid oid d).2 =
      (addOrderItem s uid oid d).2 ∧
    (addOrderItem (setMenuTakeawayFields s tp bp av tw) uid oid d).1.orders =
      (addOrderItem s uid oid d).1.orders ∧
    (addOrderItem (setMenuTakeawayFields s tp bp av tw) uid oid d).1.order_items =
      (addOrderItem s uid oid d).1.order_items := by
  have hE := addOrderItemE_takeaway_fields_irrelevant tp bp av tw s uid oid d
  unfold addOrderItem
  rw [hE]
  cases hr : addOrderItemE s uid oid d with
  | error e => exact ⟨rfl, rfl, rfl⟩
  | ok p =>
    cases p with
    | mk o' oi => exact ⟨rfl, rfl, rfl⟩

end TakeawayFieldLemmas

/-- C10: a line added through `add_order_item` is always priced at the
menu item's base `price` and succeeds only under the general
`is_available` flag, for every order — its `order_type` (takeaway
included) notwithstanding; and the handler consults nothing else of the
pricing tiers or availability flags: rewriting every menu item's
`takeaway_price`, `beach_bar_price`, `is_available_takeaway` and
`is_takeaway_only` arbitrarily changes neither the response nor the
committed orders and lines. -/
theorem add_item_base_price_only :
    (∀ (s : Store) (uid oid : Nat) (d : ItemReq) (oi : OrderItem)
        (o : Order) (mi : MenuItem),
      (addOrderItem s uid oid d).2 = .ok oi →
      findOrder s oid = some o →
      findMenuItem s d.menu_item_id = some mi →
      oi.unit_price = mi.price ∧
      oi.total_price = mi.price * ((d.quantity.getD 0 : Int) : ℚ) ∧
      mi.is_available = true) ∧
    (∀ (tp bp : MenuItem → Option ℚ) (av tw : MenuItem → Bool)
        (s : Store) (uid oid : Nat) (d : ItemReq),
      (addOrderItem (setMenuTakeawayFields s tp bp av tw) uid oid d).2 =
        (addOrderItem s uid oid d).2 ∧
      (addOrderItem (setMenuTakeawayFields s tp bp av tw) uid oid d).1.orders =
        (addOrderItem s uid oid d).1.orders ∧
      (addOrderItem (setMenuTakeawayFields s tp bp av tw) uid oid d).1.order_items =
        (addOrderItem s uid oid d).1.order_items) := by
  constructor
  · intro s uid oid d oi o mi h ho hmi
    obtain ⟨o', hE⟩ := addOrderItem_ok_inv h
    obtain ⟨o0, u, mi2, ho0, hu, hstat, hmi2, hav, hoi, _⟩ := addOrderItemE_ok_spec hE
    rw [hmi] at hmi2
    obtain rfl : mi = mi2 := by simpa using hmi2
    exact ⟨by rw [hoi], by rw [hoi], hav⟩
  · exact addOrderItem_takeaway_fields_irrelevant

/-- Witness for C10: adding item C (base 5, takeaway price 4) to a
*takeaway* order prices the line at the base price 5; and blanking every
item's takeaway price and setting `is_available_takeaway` and
`is_takeaway_only` to `false` leaves the outcome of the same add
untouched. -/
theorem add_item_base_price_only_witness :
    exOrderPending.order_type = "takeaway" ∧
    exMenuC.takeaway_price = some 4 ∧
    ((⟨2, 1, 3, 1, 5, 5, ""⟩ : OrderItem).unit_price = exMenuC.price ∧
     (⟨2, 1, 3, 1, 5, 5, ""⟩ : OrderItem).total_price =
       exMenuC.price * ((exAddReq.quantity.getD 0 : Int) : ℚ) ∧
     exMenuC.is_available = true) ∧
    ((addOrderItem (setMenuTakeawayFields exStorePending (fun _ => none)
        (fun _ => none) (fun _ => false) (fun _ => false)) 1 1 exAddReq).2 =
      (addOrderItem exStorePending 1 1 exAddReq).2 ∧
     (addOrderItem (setMenuTakeawayFields exStorePending (fun _ => none)
        (fun _ => none) (fun _ => false) (fun _ => false)) 1 1 exAddReq).1.orders =
      (addOrderItem exStorePending 1 1 exAddReq).1.orders ∧
     (addOrderItem (setMenuTakeawayFields exStorePending (fun _ => none)
        (fun _ => none) (fun _ => false) (fun _ => false)) 1 1 exAddReq).1.order_items =
      (addOrderItem exStorePending 1 1 exAddReq).1.order_items) :=
  ⟨by decide, by with_unfolding_all decide,
   add_item_base_price_only.1 exStorePending 1 1 exAddReq ⟨2, 1, 3, 1, 5, 5, ""⟩
     exOrderPending exMenuC (by with_unfolding_all decide)
     (by with_unfolding_all decide) (by with_unfolding_all decide),
   add_item_base_price_only.2 (fun _ => none) (fun _ => none) (fun _ => false)
     (fun _ => false) exStorePending 1 1 exAddReq⟩

section PrintLemmas

theorem attemptPrint_known_some (send : PrinterConfig → Bool × String)
    (p : PrinterConfig)
    (hk : p.printer_type = "kitchen" ∨ p.printer_type = "bar" ∨
      p.printer_type = "receipt") :
    ∃ r, attemptPrint send p = some r := by
  unfold attemptPrint
  rw [if_pos hk]
  split_ifs <;> exact ⟨_, rfl⟩

theorem attemptPrint_unknown_none (send : PrinterConfig → Bool × String)
    (p : PrinterConfig)
    (hk : ¬ (p.printer_type = "kitchen" ∨ p.printer_type = "bar" ∨
      p.printer_type = "receipt")) :
    attemptPrint send p = none := by
  unfold attemptPrint
  rw [if_neg hk]

theorem filterMap_attemptPrint_length (send : PrinterConfig → Bool × String) :
    ∀ l : List PrinterConfig,
      (l.filterMap (attemptPrint send)).length =
        (l.filter (fun p => p.printer_type = "kitchen" ∨ p.printer_type = "bar" ∨
          p.printer_type = "receipt")).length := by
  intro l
  induction l with
  | nil => rfl
  | cons p l ih =>
    by_cases hk : (p.printer_type = "kitchen" ∨ p.printer_type = "bar" ∨
      p.printer_type = "receipt")
    · obtain ⟨r, hr⟩ := attemptPrint_known_some send p hk
      rw [List.filterMap_cons_some hr,
        List.filter_cons_of_pos (by simpa using hk)]
      simp [ih]
    · rw [List.filterMap_cons_none (attemptPrint_unknown_none send p hk),
        List.filter_cons_of_neg (by simpa using hk)]
      exact ih

end PrintLemmas

/-- C7: `print_order` on an existing order attempts every selected
printer independently — each kitchen/bar/receipt printer contributes
exactly one entry to the report, a non-virtual printer's entry records
precisely the success flag and message of its own delivery attempt, and
the call returns HTTP success with a succeeded/total message no matter how
many attempts failed. -/
theorem print_dispatch_independent (s : Store) (printers : List PrinterConfig)
    (oid : Nat) (ptype? : Option String) (send : PrinterConfig → Bool × String)
    (o : Order) (ho : findOrder s oid = some o) :
    ∃ resp, printOrder s printers oid ptype? send = .ok resp ∧
      resp.results.length =
        ((eligiblePrinters printers (ptype?.getD "all")).filter
          (fun p => p.printer_type = "kitchen" ∨ p.printer_type = "bar" ∨
            p.printer_type = "receipt")).length ∧
      (∀ p ∈ eligiblePrinters printers (ptype?.getD "all"),
        (p.printer_type = "kitchen" ∨ p.printer_type = "bar" ∨
          p.printer_type = "receipt") →
        isVirtualIp p.ip_address = false →
        (⟨p.name, p.printer_type, (send p).1, (send p).2⟩ : PrintResult) ∈
          resp.results) ∧
      (∃ nsucc ntot,
        nsucc = (resp.results.filter (fun r => r.success)).length ∧
        ntot = resp.results.length ∧
        resp.message = s!"Print job completed. {nsucc}/{ntot} printers successful.") := by
  unfold printOrder
  rw [ho]
  refine ⟨_, rfl, filterMap_attemptPrint_length send _, ?_, _, _, rfl, rfl, rfl⟩
  intro p hp hk hv
  refine List.mem_filterMap.mpr ⟨p, hp, ?_⟩
  unfold attemptPrint
  rw [if_pos hk, if_neg (by simp [hv])]

/-- Witness for C7: three active printers, the third unreachable — the
report has 3 entries, 2 successes, 1 recorded failure, and the call still
succeeds with a "2/3" message. -/
theorem print_dispatch_independent_witness :
    (printOrder exStoreServed exPrinters 1 none exSend = .ok
      ⟨"Print job completed. 2/3 printers successful.",
       [⟨"P1", "kitchen", true, "Print job sent successfully"⟩,
        ⟨"P2", "bar", true, "Print job sent successfully"⟩,
        ⟨"P3", "receipt", false, "connection refused"⟩]⟩) ∧
    (∃ resp, printOrder exStoreServed exPrinters 1 none exSend = .ok resp ∧
      resp.results.length =
        ((eligiblePrinters exPrinters (Option.getD none "all")).filter
          (fun p => p.printer_type = "kitchen" ∨ p.printer_type = "bar" ∨
            p.printer_type = "receipt")).length ∧
      (∀ p ∈ eligiblePrinters exPrinters (Option.getD none "all"),
        (p.printer_type = "kitchen" ∨ p.printer_type = "bar" ∨
          p.printer_type = "receipt") →
        isVirtualIp p.ip_address = false →
        (⟨p.name, p.printer_type, (exSend p).1, (exSend p).2⟩ : PrintResult) ∈
          resp.results) ∧
      (∃ nsucc ntot,
        nsucc = (resp.results.filter (fun r => r.success)).length ∧
        ntot = resp.results.length ∧
        resp.message = s!"Print job completed. {nsucc}/{ntot} printers successful.")) :=
  ⟨by with_unfolding_all decide,
   print_dispatch_independent exStoreServed exPrinters 1 none exSend exOrderServed
     (by with_unfolding_all decide)⟩

end WOS
